import Mathlib

/-!
Verification of the payment-verification and generation-quota handlers of the
AI Coloring Studio application.

The development shallowly embeds the two Next.js route handlers
(`app/api/verify-payment/route.ts` and `app/api/generate-image/route.ts`)
as pure Lean functions over an explicit document-store state.  JavaScript
values stored in a user document are modelled by `JsVal`; request bodies use
`Option String` so that a missing field and an empty string are both
expressible (both are falsy in the source's validation checks).  The
HMAC-SHA256 signature computed by node's `crypto` module is embedded as a
complete executable implementation over byte lists (`Nat` below 256), with
words as `Nat` reduced modulo `2 ^ 32`.
-/

/-- Reduce a natural number to a 32-bit word, as JavaScript/SHA-256 word
arithmetic does. -/
def w32 (n : Nat) : Nat := n % 4294967296

/-- Right rotation of a 32-bit word by `n` bits. -/
def rotr (n w : Nat) : Nat := w32 ((w >>> n) ||| (w <<< (32 - n)))

/-- SHA-256 small sigma 0: used in the message schedule. -/
def smallSigma0 (w : Nat) : Nat := (rotr 7 w) ^^^ (rotr 18 w) ^^^ (w >>> 3)

/-- SHA-256 small sigma 1: used in the message schedule. -/
def smallSigma1 (w : Nat) : Nat := (rotr 17 w) ^^^ (rotr 19 w) ^^^ (w >>> 10)

/-- SHA-256 big sigma 0: used in the compression rounds. -/
def bigSigma0 (x : Nat) : Nat := (rotr 2 x) ^^^ (rotr 13 x) ^^^ (rotr 22 x)

/-- SHA-256 big sigma 1: used in the compression rounds. -/
def bigSigma1 (x : Nat) : Nat := (rotr 6 x) ^^^ (rotr 11 x) ^^^ (rotr 25 x)

/-- SHA-256 choice function; the complement is taken within 32 bits. -/
def chFn (x y z : Nat) : Nat := (x &&& y) ^^^ ((x ^^^ 4294967295) &&& z)

/-- SHA-256 majority function. -/
def majFn (x y z : Nat) : Nat := (x &&& y) ^^^ (x &&& z) ^^^ (y &&& z)

/-- The 64 SHA-256 round constants. -/
def sha256K : List Nat :=
  [1116352408, 1899447441, 3049323471, 3921009573, 961987163,
   1508970993, 2453635748, 2870763221, 3624381080, 310598401,
   607225278, 1426881987, 1925078388, 2162078206, 2614888103,
   3248222580, 3835390401, 4022224774, 264347078, 604807628,
   770255983, 1249150122, 1555081692, 1996064986, 2554220882,
   2821834349, 2952996808, 3210313671, 3336571891, 3584528711,
   113926993, 338241895, 666307205, 773529912, 1294757372,
   1396182291, 1695183700, 1986661051, 2177026350, 2456956037,
   2730485921, 2820302411, 3259730800, 3345764771, 3516065817,
   3600352804, 4094571909, 275423344, 430227734, 506948616,
   659060556, 883997877, 958139571, 1322822218, 1537002063,
   1747873779, 1955562222, 2024104815, 2227730452, 2361852424,
   2428436474, 2756734187, 3204031479, 3329325298]

/-- The SHA-256 working state: eight 32-bit words. -/
structure Sha256State where
  a : Nat
  b : Nat
  c : Nat
  d : Nat
  e : Nat
  f : Nat
  g : Nat
  h : Nat
deriving DecidableEq

/-- The SHA-256 initial hash value. -/
def sha256Init : Sha256State :=
  ⟨1779033703, 3144134277, 1013904242, 2773480762,
   1359893119, 2600822924, 528734635, 1541459225⟩

/-- One SHA-256 compression round; `kw` is the round constant already added
to the schedule word (mod `2 ^ 32`). -/
def sha256Round (s : Sha256State) (kw : Nat) : Sha256State :=
  let t1 := w32 (s.h + bigSigma1 s.e + chFn s.e s.f s.g + kw)
  let t2 := w32 (bigSigma0 s.a + majFn s.a s.b s.c)
  ⟨w32 (t1 + t2), s.a, s.b, s.c, w32 (s.d + t1), s.e, s.f, s.g⟩

/-- Extend the (reversed) message schedule by `n` further words, then return
the whole schedule in order. -/
def extendSchedule : Nat → List Nat → List Nat
  | 0, acc => acc.reverse
  | n + 1, acc =>
      let v := w32 (smallSigma1 (acc.getD 1 0) + acc.getD 6 0 +
                    smallSigma0 (acc.getD 14 0) + acc.getD 15 0)
      extendSchedule n (v :: acc)

/-- Big-endian bytes of `n`, `k` bytes wide. -/
def beBytes : Nat → Nat → List Nat
  | 0, _ => []
  | k + 1, n => beBytes k (n >>> 8) ++ [n &&& 255]

/-- Pack a byte list into big-endian 32-bit words, four bytes at a time. -/
def toWords : List Nat → List Nat
  | a :: b :: c :: d :: rest =>
      ((a <<< 24) ||| (b <<< 16) ||| (c <<< 8) ||| d) :: toWords rest
  | _ => []

/-- Group a word list into blocks of sixteen words. -/
def toBlocks16 : List Nat → List (List Nat)
  | w0 :: w1 :: w2 :: w3 :: w4 :: w5 :: w6 :: w7 ::
    w8 :: w9 :: w10 :: w11 :: w12 :: w13 :: w14 :: w15 :: rest =>
      [w0, w1, w2, w3, w4, w5, w6, w7, w8, w9, w10, w11, w12, w13, w14, w15] ::
        toBlocks16 rest
  | _ => []

/-- SHA-256 padding: append `0x80`, zero bytes up to 56 mod 64, then the
bit length as eight big-endian bytes. -/
def sha256Pad (msg : List Nat) : List Nat :=
  let r := msg.length % 64
  msg ++ 128 :: List.replicate ((119 - r) % 64) 0 ++ beBytes 8 (msg.length * 8)

/-- Compress one sixteen-word block into the running hash state. -/
def sha256Compress (hs : Sha256State) (block : List Nat) : Sha256State :=
  let sched := extendSchedule 48 block.reverse
  let kws := List.zipWith (fun k w => w32 (k + w)) sha256K sched
  let s := kws.foldl sha256Round hs
  ⟨w32 (s.a + hs.a), w32 (s.b + hs.b), w32 (s.c + hs.c), w32 (s.d + hs.d),
   w32 (s.e + hs.e), w32 (s.f + hs.f), w32 (s.g + hs.g), w32 (s.h + hs.h)⟩

/-- SHA-256 digest of a byte list, as 32 bytes. -/
def sha256Bytes (msg : List Nat) : List Nat :=
  let s := (toBlocks16 (toWords (sha256Pad msg))).foldl sha256Compress sha256Init
  beBytes 4 s.a ++ beBytes 4 s.b ++ beBytes 4 s.c ++ beBytes 4 s.d ++
  beBytes 4 s.e ++ beBytes 4 s.f ++ beBytes 4 s.g ++ beBytes 4 s.h

/-- Lowercase hexadecimal digit for a value below 16. -/
def hexDigitChar (n : Nat) : Char :=
  if n < 10 then Char.ofNat (48 + n) else Char.ofNat (87 + n)

/-- Lowercase hexadecimal characters of a byte list, two per byte. -/
def bytesToHexChars : List Nat → List Char
  | [] => []
  | b :: bs => hexDigitChar (b / 16) :: hexDigitChar (b % 16) :: bytesToHexChars bs

/-- Lowercase hexadecimal string of a byte list, as node's `digest('hex')`. -/
def bytesToHex (bs : List Nat) : String := String.mk (bytesToHexChars bs)

/-- UTF-8 encoding of one character, as node's default string encoding. -/
def utf8EncodeChar (c : Char) : List Nat :=
  let n := c.toNat
  if n < 128 then [n]
  else if n < 2048 then [192 ||| (n >>> 6), 128 ||| (n &&& 63)]
  else if n < 65536 then
    [224 ||| (n >>> 12), 128 ||| ((n >>> 6) &&& 63), 128 ||| (n &&& 63)]
  else
    [240 ||| (n >>> 18), 128 ||| ((n >>> 12) &&& 63),
     128 ||| ((n >>> 6) &&& 63), 128 ||| (n &&& 63)]

/-- UTF-8 bytes of a string. -/
def utf8Bytes (s : String) : List Nat := (s.data.map utf8EncodeChar).flatten

/-- HMAC-SHA256 over byte lists (block size 64). -/
def hmacSha256 (key msg : List Nat) : List Nat :=
  let k0 := if key.length > 64 then sha256Bytes key else key
  let k := k0 ++ List.replicate (64 - k0.length) 0
  let ipad := k.map (fun b => b ^^^ 54)
  let opad := k.map (fun b => b ^^^ 92)
  sha256Bytes (opad ++ sha256Bytes (ipad ++ msg))

/-- The signature the handler computes:
`crypto.createHmac('sha256', secret).update(msg).digest('hex')`. -/
def hmacSha256Hex (key msg : String) : String :=
  bytesToHex (hmacSha256 (utf8Bytes key) (utf8Bytes msg))

/-- A JavaScript value as storable in a user-document field. -/
inductive JsVal where
  | vBool (b : Bool)
  | vNum (n : Int)
  | vStr (s : String)
  | vNull
deriving DecidableEq

/-- The per-user entitlement document of the `users` collection. -/
structure UserDoc where
  isSubscribed : Option JsVal
  generationCount : Option Int
  razorpayOrderId : Option String
  razorpayPaymentId : Option String
  upgradedAt : Option Nat
deriving DecidableEq

/-- One document of a user's `generatedImages` subcollection. -/
structure ImageRecord where
  imageUrl : String
  prompt : String
  createdAt : Nat
  userId : String
deriving DecidableEq

/-- The Firestore state the two handlers touch: the `users` collection and
the per-user `generatedImages` subcollections. -/
structure Store where
  users : String → Option UserDoc
  generatedImages : String → List ImageRecord

/-- The JSON body of a `POST /verify-payment` request; `none` models a
missing field. -/
structure VerifyRequest where
  razorpay_order_id : Option String
  razorpay_payment_id : Option String
  razorpay_signature : Option String
  userId : Option String

/-- JavaScript falsiness of a possibly missing string field: a missing field
(`undefined`) and the empty string are both falsy. -/
def strFalsy : Option String → Bool
  | none => true
  | some s => decide (s = "")

/-- Outcome of one `POST /verify-payment` invocation: HTTP status, the JSON
response's `success` and `message` fields, and the resulting store. -/
structure VerifyResult where
  status : Nat
  success : Bool
  message : String
  store : Store

/-- Message of the error Firestore's `update` throws on a missing document,
surfaced by the handler's catch block as a 500 response. -/
def updateMissingDocMessage : String := "5 NOT_FOUND: no entity to update"

/-- The `POST` handler of `app/api/verify-payment/route.ts`.  `secretKeyEnv`
is `process.env.RAZORPAY_KEY_SECRET`; `now` stands for the server timestamp
`FieldValue.serverTimestamp()` assigns. -/
def verifyPaymentPOST (secretKeyEnv : Option String) (now : Nat)
    (store : Store) (req : VerifyRequest) : VerifyResult :=
  if strFalsy req.razorpay_order_id || strFalsy req.razorpay_payment_id ||
     strFalsy req.razorpay_signature || strFalsy req.userId then
    ⟨400, false, "Missing required fields", store⟩
  else if strFalsy secretKeyEnv then
    ⟨500, false, "Server configuration error", store⟩
  else
    let secret := secretKeyEnv.getD ""
    let orderId := req.razorpay_order_id.getD ""
    let paymentId := req.razorpay_payment_id.getD ""
    let generatedSignature := hmacSha256Hex secret (orderId ++ "|" ++ paymentId)
    if generatedSignature ≠ req.razorpay_signature.getD "" then
      ⟨400, false, "Invalid payment signature", store⟩
    else
      let uid := req.userId.getD ""
      match store.users uid with
      | none => ⟨500, false, updateMissingDocMessage, store⟩
      | some doc =>
        let doc' : UserDoc :=
          { doc with isSubscribed := some (JsVal.vBool true),
                     razorpayOrderId := some orderId,
                     razorpayPaymentId := some paymentId,
                     upgradedAt := some now }
        ⟨200, true, "Payment verified and user upgraded to Pro!",
         { store with users := fun u => if u = uid then some doc' else store.users u }⟩

/-- The JSON body of a `POST /generate-image` request; `none` models a
missing field. -/
structure GenerateRequest where
  prompt : Option String
  userId : Option String

/-- Outcome of one `POST /generate-image` invocation; `readUserDoc` and
`calledGateway` record whether the handler read the entitlement document and
whether it invoked the external generation flow. -/
structure GenerateResult where
  status : Nat
  success : Bool
  message : String
  store : Store
  readUserDoc : Bool
  calledGateway : Bool

/-- JavaScript string length (UTF-16 code units), which zod's `min(3)`
checks on the prompt. -/
def jsStringLength (s : String) : Nat :=
  (s.data.map (fun c => if c.toNat < 65536 then 1 else 2)).sum

/-- `const FREE_GENERATION_LIMIT = 5`. -/
def FREE_GENERATION_LIMIT : Int := 5

/-- `const isPro = userData?.isSubscribed === true`: a strict comparison with
the boolean `true`. -/
def isProOf (doc : UserDoc) : Bool :=
  decide (doc.isSubscribed = some (JsVal.vBool true))

/-- `userData?.generationCount || 0`: a missing or falsy (zero) stored count
reads as 0. -/
def genCountRead : Option Int → Int
  | none => 0
  | some n => if n = 0 then 0 else n

/-- The zod error message for the `prompt` field, when the field fails the
schema `z.string().min(3)`. -/
def promptFieldError (prompt : Option String) : Option String :=
  match prompt with
  | none => some "Required"
  | some p =>
      if jsStringLength p < 3 then some "String must contain at least 3 character(s)"
      else none

/-- Firestore `FieldValue.increment(1)` on a possibly missing integer field:
a missing field is set to the operand. -/
def incrementField : Option Int → Option Int
  | none => some 1
  | some n => some (n + 1)

/-- The `POST` handler of `app/api/generate-image/route.ts`.  `gateway` is
the result the external `generateColoringPageFromPrompt` flow would produce
if invoked (`Except.error` models a thrown error); `now` stands for
`FieldValue.serverTimestamp()`. -/
def generateImagePOST (gateway : Except String String) (now : Nat)
    (store : Store) (req : GenerateRequest) : GenerateResult :=
  match promptFieldError req.prompt with
  | some e => ⟨400, false, e, store, false, false⟩
  | none =>
    match req.userId with
    | none => ⟨400, false, "Invalid input.", store, false, false⟩
    | some userId =>
      let prompt := req.prompt.getD ""
      match store.users userId with
      | none => ⟨404, false, "User profile not found.", store, true, false⟩
      | some doc =>
        let isPro := isProOf doc
        let generationCount := genCountRead doc.generationCount
        if !isPro && decide (generationCount ≥ FREE_GENERATION_LIMIT) then
          ⟨403, false, "Free generation limit reached. Please upgrade to Pro.",
           store, true, false⟩
        else
          match gateway with
          | Except.error e => ⟨500, false, "❌ " ++ e, store, true, true⟩
          | Except.ok imageUrl =>
            let store1 : Store :=
              { store with
                generatedImages := fun u =>
                  if u = userId then
                    store.generatedImages u ++ [⟨imageUrl, prompt, now, userId⟩]
                  else store.generatedImages u }
            let store2 : Store :=
              if isPro then store1
              else
                { store1 with
                  users := fun u =>
                    if u = userId then
                      some { doc with
                             generationCount := incrementField doc.generationCount }
                    else store1.users u }
            ⟨200, true, "✅ Coloring page ready!", store2, true, true⟩

set_option maxRecDepth 100000

theorem beBytes_length : ∀ (k n : Nat), (beBytes k n).length = k := by
  intro k
  induction k with
  | zero => intro n; rfl
  | succ k ih => intro n; simp [beBytes, ih]

theorem sha256Bytes_length (m : List Nat) : (sha256Bytes m).length = 32 := by
  simp [sha256Bytes, beBytes_length]

theorem hmacSha256_length (key msg : List Nat) :
    (hmacSha256 key msg).length = 32 := by
  simp [hmacSha256, sha256Bytes_length]

theorem hmacSha256Hex_ne_empty (key msg : String) : hmacSha256Hex key msg ≠ "" := by
  intro hcontra
  have hdata : (hmacSha256Hex key msg).data = ("" : String).data :=
    congrArg String.data hcontra
  have hnil : bytesToHexChars (hmacSha256 (utf8Bytes key) (utf8Bytes msg)) = [] := by
    simpa [hmacSha256Hex, bytesToHex] using hdata
  have hlen := hmacSha256_length (utf8Bytes key) (utf8Bytes msg)
  cases hcases : hmacSha256 (utf8Bytes key) (utf8Bytes msg) with
  | nil => rw [hcases] at hlen; simp at hlen
  | cons b tl => rw [hcases] at hnil; simp [bytesToHexChars] at hnil

/-- The FIPS 180-4 test vector for the message "abc", pinning the embedded
SHA-256 to the function node's crypto computes. -/
theorem sha256_abc_vector :
    bytesToHex (sha256Bytes [97, 98, 99]) =
      "ba7816bf8f01cfea414140de5dae2223b00361a396177a9cb410ff61f20015ad" := by
  decide

/-- A concrete HMAC-SHA256 vector for the spec's scenario inputs. -/
theorem hmac_scenario_vector :
    hmacSha256Hex "s3cr3t" "order_1|pay_1" =
      "c4ba7785e595b717abd8b4847eaf30e97f23acbdbe1b8f5cbbf17d28d63b068f" := by
  decide

/-- A singleton users collection with empty image subcollections, for
concrete scenarios. -/
def mkStore (uid : String) (doc : UserDoc) : Store :=
  ⟨fun u => if u = uid then some doc else none, fun _ => []⟩

/-- A free-tier entitlement document with no generations used. -/
def sampleDoc : UserDoc := ⟨some (JsVal.vBool false), some 0, none, none, none⟩

/-- C7: a request with any of the four fields missing or empty is answered
400 "Missing required fields" and the store is untouched. -/
theorem verifyPayment_missing_fields (env : Option String) (now : Nat)
    (store : Store) (req : VerifyRequest)
    (hmiss : req.razorpay_order_id = none ∨ req.razorpay_order_id = some "" ∨
             req.razorpay_payment_id = none ∨ req.razorpay_payment_id = some "" ∨
             req.razorpay_signature = none ∨ req.razorpay_signature = some "" ∨
             req.userId = none ∨ req.userId = some "") :
    (verifyPaymentPOST env now store req).status = 400 ∧
    (verifyPaymentPOST env now store req).message = "Missing required fields" ∧
    (verifyPaymentPOST env now store req).store = store := by
  have hcond : (strFalsy req.razorpay_order_id || strFalsy req.razorpay_payment_id ||
      strFalsy req.razorpay_signature || strFalsy req.userId) = true := by
    rcases hmiss with h | h | h | h | h | h | h | h <;> simp [strFalsy, h]
  simp [verifyPaymentPOST, hcond]

theorem verifyPayment_missing_fields_witness :
    (verifyPaymentPOST (some "s3cr3t") 0 (mkStore "u1" sampleDoc)
        ⟨some "order_1", some "pay_1", some "", some "u1"⟩).status = 400 ∧
    (verifyPaymentPOST (some "s3cr3t") 0 (mkStore "u1" sampleDoc)
        ⟨some "order_1", some "pay_1", some "", some "u1"⟩).message =
      "Missing required fields" ∧
    (verifyPaymentPOST (some "s3cr3t") 0 (mkStore "u1" sampleDoc)
        ⟨some "order_1", some "pay_1", some "", some "u1"⟩).store =
      mkStore "u1" sampleDoc :=
  verifyPayment_missing_fields (some "s3cr3t") 0 (mkStore "u1" sampleDoc)
    ⟨some "order_1", some "pay_1", some "", some "u1"⟩
    (by simp)

/-- C2: a well-formed request whose signature is not the recomputed HMAC is
answered 400 "Invalid payment signature" and the store is untouched. -/
theorem verifyPayment_invalid_signature (secret orderId paymentId sig uid : String)
    (now : Nat) (store : Store)
    (hsecret : secret ≠ "") (ho : orderId ≠ "") (hp : paymentId ≠ "")
    (hs : sig ≠ "") (hu : uid ≠ "")
    (hsig : sig ≠ hmacSha256Hex secret (orderId ++ "|" ++ paymentId)) :
    (verifyPaymentPOST (some secret) now store
        ⟨some orderId, some paymentId, some sig, some uid⟩).status = 400 ∧
    (verifyPaymentPOST (some secret) now store
        ⟨some orderId, some paymentId, some sig, some uid⟩).message =
      "Invalid payment signature" ∧
    (verifyPaymentPOST (some secret) now store
        ⟨some orderId, some paymentId, some sig, some uid⟩).store = store := by
  simp [verifyPaymentPOST, strFalsy, hsecret, ho, hp, hs, hu, Ne.symm hsig]

theorem verifyPayment_invalid_signature_witness :
    (verifyPaymentPOST (some "s3cr3t") 0 (mkStore "u1" sampleDoc)
        ⟨some "order_1", some "pay_1", some "deadbeef", some "u1"⟩).status = 400 ∧
    (verifyPaymentPOST (some "s3cr3t") 0 (mkStore "u1" sampleDoc)
        ⟨some "order_1", some "pay_1", some "deadbeef", some "u1"⟩).message =
      "Invalid payment signature" ∧
    (verifyPaymentPOST (some "s3cr3t") 0 (mkStore "u1" sampleDoc)
        ⟨some "order_1", some "pay_1", some "deadbeef", some "u1"⟩).store =
      mkStore "u1" sampleDoc :=
  verifyPayment_invalid_signature "s3cr3t" "order_1" "pay_1" "deadbeef" "u1" 0
    (mkStore "u1" sampleDoc) (by decide) (by decide) (by decide) (by decide)
    (by decide) (by decide)

/-- C1: for a well-formed request to a configured server about an existing
user, the handler accepts exactly when the submitted signature equals the
lowercase hex HMAC-SHA256 of `orderId|paymentId` under the secret; and with
the secret configured, any quadruple whose signature differs from that HMAC
is never accepted. -/
theorem verifyPayment_accepts_iff_hmac (secret orderId paymentId sig uid : String)
    (now : Nat) (store : Store) (doc : UserDoc)
    (hsecret : secret ≠ "") (ho : orderId ≠ "") (hp : paymentId ≠ "")
    (hs : sig ≠ "") (hu : uid ≠ "")
    (hdoc : store.users uid = some doc) :
    ((verifyPaymentPOST (some secret) now store
        ⟨some orderId, some paymentId, some sig, some uid⟩).success = true
      ↔ sig = hmacSha256Hex secret (orderId ++ "|" ++ paymentId)) ∧
    (∀ (o p s u : String) (st : Store),
      s ≠ hmacSha256Hex secret (o ++ "|" ++ p) →
      (verifyPaymentPOST (some secret) now st
          ⟨some o, some p, some s, some u⟩).success = false) := by
  constructor
  · by_cases hsig : sig = hmacSha256Hex secret (orderId ++ "|" ++ paymentId)
    · subst hsig
      simp [verifyPaymentPOST, strFalsy, hsecret, ho, hp, hs, hu, hdoc]
    · simp [verifyPaymentPOST, strFalsy, hsecret, ho, hp, hs, hu, hsig,
        Ne.symm hsig]
  · intro o p s u st hdiff
    by_cases hfalsy : (strFalsy (some o) || strFalsy (some p) ||
        strFalsy (some s) || strFalsy (some u)) = true
    · simp [verifyPaymentPOST, hfalsy]
    · simp only [Bool.or_eq_true, not_or, Bool.not_eq_true] at hfalsy
      obtain ⟨⟨⟨ho', hp'⟩, hs'⟩, hu'⟩ := hfalsy
      simp [verifyPaymentPOST, ho', hp', hs', hu', strFalsy, hsecret,
        Ne.symm hdiff]
      split <;> rfl

theorem verifyPayment_accepts_iff_hmac_witness :
    ((verifyPaymentPOST (some "s3cr3t") 0 (mkStore "u1" sampleDoc)
        ⟨some "order_1", some "pay_1", some "deadbeef", some "u1"⟩).success = true
      ↔ "deadbeef" = hmacSha256Hex "s3cr3t" ("order_1" ++ "|" ++ "pay_1")) ∧
    (∀ (o p s u : String) (st : Store),
      s ≠ hmacSha256Hex "s3cr3t" (o ++ "|" ++ p) →
      (verifyPaymentPOST (some "s3cr3t") 0 st
          ⟨some o, some p, some s, some u⟩).success = false) :=
  verifyPayment_accepts_iff_hmac "s3cr3t" "order_1" "pay_1" "deadbeef" "u1" 0
    (mkStore "u1" sampleDoc) sampleDoc (by decide) (by decide) (by decide)
    (by decide) (by decide) (by decide)

/-- The success path of the payment handler, as an equation: a well-formed
request carrying the correct signature for an existing user yields 200 and
rewrites the subscription, audit and timestamp fields of that user's
document. -/
theorem verifyPayment_valid_eq (secret orderId paymentId uid : String)
    (now : Nat) (store : Store) (doc : UserDoc)
    (hsecret : secret ≠ "") (ho : orderId ≠ "") (hp : paymentId ≠ "")
    (hu : uid ≠ "") (hdoc : store.users uid = some doc) :
    verifyPaymentPOST (some secret) now store
        ⟨some orderId, some paymentId,
         some (hmacSha256Hex secret (orderId ++ "|" ++ paymentId)), some uid⟩ =
    ⟨200, true, "Payment verified and user upgraded to Pro!",
     ⟨fun u => if u = uid then
          some ⟨some (JsVal.vBool true), doc.generationCount, some orderId,
                some paymentId, some now⟩
        else store.users u,
      store.generatedImages⟩⟩ := by
  have hs := hmacSha256Hex_ne_empty secret (orderId ++ "|" ++ paymentId)
  simp [verifyPaymentPOST, strFalsy, hsecret, ho, hp, hu, hs, hdoc]

/-- C6: two identical valid verification calls both succeed, and the second
leaves the same subscription flag and payment identifiers as the first. -/
theorem verifyPayment_idempotent (secret orderId paymentId uid : String)
    (now1 now2 : Nat) (store : Store) (doc : UserDoc)
    (hsecret : secret ≠ "") (ho : orderId ≠ "") (hp : paymentId ≠ "")
    (hu : uid ≠ "") (hdoc : store.users uid = some doc) :
    (verifyPaymentPOST (some secret) now1 store
        ⟨some orderId, some paymentId,
         some (hmacSha256Hex secret (orderId ++ "|" ++ paymentId)),
         some uid⟩).success = true ∧
    (verifyPaymentPOST (some secret) now2
        (verifyPaymentPOST (some secret) now1 store
          ⟨some orderId, some paymentId,
           some (hmacSha256Hex secret (orderId ++ "|" ++ paymentId)),
           some uid⟩).store
        ⟨some orderId, some paymentId,
         some (hmacSha256Hex secret (orderId ++ "|" ++ paymentId)),
         some uid⟩).success = true ∧
    ∃ d1 d2,
      (verifyPaymentPOST (some secret) now1 store
          ⟨some orderId, some paymentId,
           some (hmacSha256Hex secret (orderId ++ "|" ++ paymentId)),
           some uid⟩).store.users uid = some d1 ∧
      (verifyPaymentPOST (some secret) now2
          (verifyPaymentPOST (some secret) now1 store
            ⟨some orderId, some paymentId,
             some (hmacSha256Hex secret (orderId ++ "|" ++ paymentId)),
             some uid⟩).store
          ⟨some orderId, some paymentId,
           some (hmacSha256Hex secret (orderId ++ "|" ++ paymentId)),
           some uid⟩).store.users uid = some d2 ∧
      d1.isSubscribed = some (JsVal.vBool true) ∧
      d2.isSubscribed = d1.isSubscribed ∧
      d2.razorpayOrderId = d1.razorpayOrderId ∧
      d2.razorpayPaymentId = d1.razorpayPaymentId ∧
      d1.razorpayOrderId = some orderId ∧
      d1.razorpayPaymentId = some paymentId := by
  have h1 := verifyPayment_valid_eq secret orderId paymentId uid now1 store doc
    hsecret ho hp hu hdoc
  have hdoc2 : (verifyPaymentPOST (some secret) now1 store
      ⟨some orderId, some paymentId,
       some (hmacSha256Hex secret (orderId ++ "|" ++ paymentId)),
       some uid⟩).store.users uid =
      some ⟨some (JsVal.vBool true), doc.generationCount, some orderId,
            some paymentId, some now1⟩ := by
    rw [h1]; simp
  have h2 := verifyPayment_valid_eq secret orderId paymentId uid now2
    (verifyPaymentPOST (some secret) now1 store
      ⟨some orderId, some paymentId,
       some (hmacSha256Hex secret (orderId ++ "|" ++ paymentId)),
       some uid⟩).store
    ⟨some (JsVal.vBool true), doc.generationCount, some orderId,
     some paymentId, some now1⟩ hsecret ho hp hu hdoc2
  refine ⟨by rw [h1], by rw [h2],
    ⟨some (JsVal.vBool true), doc.generationCount, some orderId,
     some paymentId, some now1⟩,
    ⟨some (JsVal.vBool true), doc.generationCount, some orderId,
     some paymentId, some now2⟩,
    hdoc2, ?_, rfl, rfl, rfl, rfl, rfl, rfl⟩
  rw [h2]; simp

theorem verifyPayment_idempotent_witness :
    (verifyPaymentPOST (some "s3cr3t") 1 (mkStore "u1" sampleDoc)
        ⟨some "order_1", some "pay_1",
         some (hmacSha256Hex "s3cr3t" ("order_1" ++ "|" ++ "pay_1")),
         some "u1"⟩).success = true ∧
    (verifyPaymentPOST (some "s3cr3t") 2
        (verifyPaymentPOST (some "s3cr3t") 1 (mkStore "u1" sampleDoc)
          ⟨some "order_1", some "pay_1",
           some (hmacSha256Hex "s3cr3t" ("order_1" ++ "|" ++ "pay_1")),
           some "u1"⟩).store
        ⟨some "order_1", some "pay_1",
         some (hmacSha256Hex "s3cr3t" ("order_1" ++ "|" ++ "pay_1")),
         some "u1"⟩).success = true ∧
    ∃ d1 d2,
      (verifyPaymentPOST (some "s3cr3t") 1 (mkStore "u1" sampleDoc)
          ⟨some "order_1", some "pay_1",
           some (hmacSha256Hex "s3cr3t" ("order_1" ++ "|" ++ "pay_1")),
           some "u1"⟩).store.users "u1" = some d1 ∧
      (verifyPaymentPOST (some "s3cr3t") 2
          (verifyPaymentPOST (some "s3cr3t") 1 (mkStore "u1" sampleDoc)
            ⟨some "order_1", some "pay_1",
             some (hmacSha256Hex "s3cr3t" ("order_1" ++ "|" ++ "pay_1")),
             some "u1"⟩).store
          ⟨some "order_1", some "pay_1",
           some (hmacSha256Hex "s3cr3t" ("order_1" ++ "|" ++ "pay_1")),
           some "u1"⟩).store.users "u1" = some d2 ∧
      d1.isSubscribed = some (JsVal.vBool true) ∧
      d2.isSubscribed = d1.isSubscribed ∧
      d2.razorpayOrderId = d1.razorpayOrderId ∧
      d2.razorpayPaymentId = d1.razorpayPaymentId ∧
      d1.razorpayOrderId = some "order_1" ∧
      d1.razorpayPaymentId = some "pay_1" :=
  verifyPayment_idempotent "s3cr3t" "order_1" "pay_1" "u1" 1 2
    (mkStore "u1" sampleDoc) sampleDoc (by decide) (by decide) (by decide)
    (by decide) (by decide)

/-- A subscribed entitlement document. -/
def proDoc : UserDoc := ⟨some (JsVal.vBool true), some 2, none, none, none⟩

/-- A free-tier document that has exhausted the free limit. -/
def limitDoc : UserDoc := ⟨some (JsVal.vBool false), some 5, none, none, none⟩

/-- A free-tier document with one generation remaining. -/
def almostDoc : UserDoc := ⟨some (JsVal.vBool false), some 4, none, none, none⟩

/-- A document whose subscription field holds a non-boolean value and whose
counter field is absent. -/
def untypedDoc : UserDoc := ⟨some (JsVal.vStr "yes"), none, none, none, none⟩

theorem promptFieldError_none (p : String) (hp : 3 ≤ jsStringLength p) :
    promptFieldError (some p) = none := by
  simp only [promptFieldError]
  rw [if_neg (by omega)]

theorem incrementField_eq (o : Option Int) :
    incrementField o = some (genCountRead o + 1) := by
  cases o with
  | none => simp [incrementField, genCountRead]
  | some n => by_cases hn : n = 0 <;> simp [incrementField, genCountRead, hn]

/-- C3: a non-subscribed user at or past the free limit is answered 403 with
the exact limit message, the store is untouched (no artifact, no counter
change) and the gateway is not invoked. -/
theorem generate_free_limit_reached (gw : Except String String) (now : Nat)
    (store : Store) (p uid : String) (doc : UserDoc) (g : Int)
    (hp : 3 ≤ jsStringLength p) (hdoc : store.users uid = some doc)
    (hsub : doc.isSubscribed = some (JsVal.vBool false))
    (hg : doc.generationCount = some g) (hglim : 5 ≤ g) :
    (generateImagePOST gw now store ⟨some p, some uid⟩).status = 403 ∧
    (generateImagePOST gw now store ⟨some p, some uid⟩).message =
      "Free generation limit reached. Please upgrade to Pro." ∧
    (generateImagePOST gw now store ⟨some p, some uid⟩).store = store ∧
    (generateImagePOST gw now store ⟨some p, some uid⟩).calledGateway = false := by
  have hgne : g ≠ 0 := by omega
  simp [generateImagePOST, promptFieldError_none p hp, hdoc, isProOf, hsub,
    genCountRead, hg, hgne, FREE_GENERATION_LIMIT, hglim]

theorem generate_free_limit_reached_witness :
    (generateImagePOST (Except.ok "http://img/1.png") 0 (mkStore "u5" limitDoc)
        ⟨some "a cat", some "u5"⟩).status = 403 ∧
    (generateImagePOST (Except.ok "http://img/1.png") 0 (mkStore "u5" limitDoc)
        ⟨some "a cat", some "u5"⟩).message =
      "Free generation limit reached. Please upgrade to Pro." ∧
    (generateImagePOST (Except.ok "http://img/1.png") 0 (mkStore "u5" limitDoc)
        ⟨some "a cat", some "u5"⟩).store = mkStore "u5" limitDoc ∧
    (generateImagePOST (Except.ok "http://img/1.png") 0 (mkStore "u5" limitDoc)
        ⟨some "a cat", some "u5"⟩).calledGateway = false :=
  generate_free_limit_reached (Except.ok "http://img/1.png") 0
    (mkStore "u5" limitDoc) "a cat" "u5" limitDoc 5 (by decide) (by decide)
    (by decide) (by decide) (by decide)

/-- C9: a request for a user with no entitlement document is answered 404
"User profile not found.", nothing is created or persisted, and the gateway
is not invoked. -/
theorem generate_user_not_found (gw : Except String String) (now : Nat)
    (store : Store) (p uid : String)
    (hp : 3 ≤ jsStringLength p) (hnone : store.users uid = none) :
    (generateImagePOST gw now store ⟨some p, some uid⟩).status = 404 ∧
    (generateImagePOST gw now store ⟨some p, some uid⟩).message =
      "User profile not found." ∧
    (generateImagePOST gw now store ⟨some p, some uid⟩).store = store ∧
    (generateImagePOST gw now store ⟨some p, some uid⟩).calledGateway = false := by
  simp [generateImagePOST, promptFieldError_none p hp, hnone]

theorem generate_user_not_found_witness :
    (generateImagePOST (Except.ok "http://img/1.png") 0 (mkStore "u1" sampleDoc)
        ⟨some "a cat", some "u2"⟩).status = 404 ∧
    (generateImagePOST (Except.ok "http://img/1.png") 0 (mkStore "u1" sampleDoc)
        ⟨some "a cat", some "u2"⟩).message = "User profile not found." ∧
    (generateImagePOST (Except.ok "http://img/1.png") 0 (mkStore "u1" sampleDoc)
        ⟨some "a cat", some "u2"⟩).store = mkStore "u1" sampleDoc ∧
    (generateImagePOST (Except.ok "http://img/1.png") 0 (mkStore "u1" sampleDoc)
        ⟨some "a cat", some "u2"⟩).calledGateway = false :=
  generate_user_not_found (Except.ok "http://img/1.png") 0
    (mkStore "u1" sampleDoc) "a cat" "u2" (by decide) (by decide)

/-- C8: a request with a prompt below three UTF-16 units or with no userId
is answered 400 before the entitlement document is read and before the
gateway is invoked, and the store is untouched. -/
theorem generate_invalid_input (gw : Except String String) (now : Nat)
    (store : Store) (req : GenerateRequest)
    (hbad : (∃ p, req.prompt = some p ∧ jsStringLength p < 3) ∨
            req.userId = none) :
    (generateImagePOST gw now store req).status = 400 ∧
    (generateImagePOST gw now store req).readUserDoc = false ∧
    (generateImagePOST gw now store req).calledGateway = false ∧
    (generateImagePOST gw now store req).store = store := by
  rcases hbad with ⟨p, hp, hlen⟩ | hu
  · simp [generateImagePOST, hp, promptFieldError, hlen]
  · cases hpe : promptFieldError req.prompt with
    | some e => simp [generateImagePOST, hpe]
    | none => simp [generateImagePOST, hpe, hu]

theorem generate_invalid_input_witness :
    (generateImagePOST (Except.ok "http://img/1.png") 0 (mkStore "u1" sampleDoc)
        ⟨some "ab", some "u1"⟩).status = 400 ∧
    (generateImagePOST (Except.ok "http://img/1.png") 0 (mkStore "u1" sampleDoc)
        ⟨some "ab", some "u1"⟩).readUserDoc = false ∧
    (generateImagePOST (Except.ok "http://img/1.png") 0 (mkStore "u1" sampleDoc)
        ⟨some "ab", some "u1"⟩).calledGateway = false ∧
    (generateImagePOST (Except.ok "http://img/1.png") 0 (mkStore "u1" sampleDoc)
        ⟨some "ab", some "u1"⟩).store = mkStore "u1" sampleDoc :=
  generate_invalid_input (Except.ok "http://img/1.png") 0
    (mkStore "u1" sampleDoc) ⟨some "ab", some "u1"⟩
    (Or.inl ⟨"ab", rfl, by decide⟩)

/-- C5: a non-subscribed user below the free limit generates successfully:
exactly one artifact carrying the returned URL and the prompt is appended to
the user's subcollection, and the counter is incremented by exactly one. -/
theorem generate_free_success (url : String) (now : Nat) (store : Store)
    (p uid : String) (doc : UserDoc)
    (hp : 3 ≤ jsStringLength p) (hdoc : store.users uid = some doc)
    (hsub : doc.isSubscribed = some (JsVal.vBool false))
    (hlt : genCountRead doc.generationCount < FREE_GENERATION_LIMIT) :
    (generateImagePOST (Except.ok url) now store ⟨some p, some uid⟩).status = 200 ∧
    (generateImagePOST (Except.ok url) now store ⟨some p, some uid⟩).success = true ∧
    (generateImagePOST (Except.ok url) now store
        ⟨some p, some uid⟩).store.generatedImages uid =
      store.generatedImages uid ++ [⟨url, p, now, uid⟩] ∧
    ∃ doc', (generateImagePOST (Except.ok url) now store
        ⟨some p, some uid⟩).store.users uid = some doc' ∧
      doc'.generationCount = some (genCountRead doc.generationCount + 1) := by
  have hnlim : ¬ (genCountRead doc.generationCount ≥ FREE_GENERATION_LIMIT) := by
    omega
  simp [generateImagePOST, promptFieldError_none p hp, hdoc, isProOf, hsub,
    hnlim, incrementField_eq]

theorem generate_free_success_witness :
    (generateImagePOST (Except.ok "http://img/1.png") 0 (mkStore "u3" almostDoc)
        ⟨some "a cat", some "u3"⟩).status = 200 ∧
    (generateImagePOST (Except.ok "http://img/1.png") 0 (mkStore "u3" almostDoc)
        ⟨some "a cat", some "u3"⟩).success = true ∧
    (generateImagePOST (Except.ok "http://img/1.png") 0 (mkStore "u3" almostDoc)
        ⟨some "a cat", some "u3"⟩).store.generatedImages "u3" =
      (mkStore "u3" almostDoc).generatedImages "u3" ++
        [⟨"http://img/1.png", "a cat", 0, "u3"⟩] ∧
    ∃ doc', (generateImagePOST (Except.ok "http://img/1.png") 0
        (mkStore "u3" almostDoc) ⟨some "a cat", some "u3"⟩).store.users "u3" =
      some doc' ∧
      doc'.generationCount = some 5 :=
  generate_free_success "http://img/1.png" 0 (mkStore "u3" almostDoc) "a cat"
    "u3" almostDoc (by decide) (by decide) (by decide) (by decide)

/-- C10: only a stored boolean `true` counts as subscribed; a user whose
subscription field holds any other value and whose counter is missing or
zero is on the free tier and is allowed to generate, the counter becoming
one. -/
theorem generate_strict_pro_check (url : String) (now : Nat) (store : Store)
    (p uid : String) (doc : UserDoc)
    (hp : 3 ≤ jsStringLength p) (hdoc : store.users uid = some doc)
    (hsub : doc.isSubscribed ≠ some (JsVal.vBool true))
    (hg : doc.generationCount = none ∨ doc.generationCount = some 0) :
    (generateImagePOST (Except.ok url) now store ⟨some p, some uid⟩).status = 200 ∧
    (generateImagePOST (Except.ok url) now store ⟨some p, some uid⟩).success = true ∧
    (generateImagePOST (Except.ok url) now store
        ⟨some p, some uid⟩).calledGateway = true ∧
    ∃ doc', (generateImagePOST (Except.ok url) now store
        ⟨some p, some uid⟩).store.users uid = some doc' ∧
      doc'.generationCount = some 1 := by
  rcases hg with hg | hg <;>
    simp [generateImagePOST, promptFieldError_none p hp, hdoc, isProOf, hsub,
      genCountRead, hg, incrementField, FREE_GENERATION_LIMIT]

theorem generate_strict_pro_check_witness :
    (generateImagePOST (Except.ok "http://img/1.png") 0 (mkStore "u6" untypedDoc)
        ⟨some "a cat", some "u6"⟩).status = 200 ∧
    (generateImagePOST (Except.ok "http://img/1.png") 0 (mkStore "u6" untypedDoc)
        ⟨some "a cat", some "u6"⟩).success = true ∧
    (generateImagePOST (Except.ok "http://img/1.png") 0 (mkStore "u6" untypedDoc)
        ⟨some "a cat", some "u6"⟩).calledGateway = true ∧
    ∃ doc', (generateImagePOST (Except.ok "http://img/1.png") 0
        (mkStore "u6" untypedDoc) ⟨some "a cat", some "u6"⟩).store.users "u6" =
      some doc' ∧ doc'.generationCount = some 1 :=
  generate_strict_pro_check "http://img/1.png" 0 (mkStore "u6" untypedDoc)
    "a cat" "u6" untypedDoc (by decide) (by decide) (by decide)
    (Or.inl (by decide))

/-- Apply the generation handler `n` times in sequence, threading the store. -/
def iterateGenerate (gw : Except String String) (now : Nat)
    (req : GenerateRequest) : Nat → Store → Store
  | 0, store => store
  | n + 1, store =>
      iterateGenerate gw now req n (generateImagePOST gw now store req).store

/-- One generation by a subscribed user never writes the users collection. -/
theorem generate_pro_preserves_users (gw : Except String String) (now : Nat)
    (store : Store) (p uid : String) (doc : UserDoc)
    (hp : 3 ≤ jsStringLength p) (hdoc : store.users uid = some doc)
    (hsub : doc.isSubscribed = some (JsVal.vBool true)) :
    (generateImagePOST gw now store ⟨some p, some uid⟩).store.users =
      store.users := by
  cases gw <;>
    simp [generateImagePOST, promptFieldError_none p hp, hdoc, isProOf, hsub]

/-- One generation by a subscribed user succeeds with status 200. -/
theorem generate_pro_ok_status (url : String) (now : Nat) (store : Store)
    (p uid : String) (doc : UserDoc)
    (hp : 3 ≤ jsStringLength p) (hdoc : store.users uid = some doc)
    (hsub : doc.isSubscribed = some (JsVal.vBool true)) :
    (generateImagePOST (Except.ok url) now store ⟨some p, some uid⟩).status =
      200 := by
  simp [generateImagePOST, promptFieldError_none p hp, hdoc, isProOf, hsub]

/-- C4: for a subscribed user, every generation in a run of successful
generations returns 200 and the stored generation counter after the run
equals its value before it. -/
theorem generate_pro_count_unchanged (url : String) (now : Nat)
    (p uid : String) (doc : UserDoc)
    (hp : 3 ≤ jsStringLength p)
    (hsub : doc.isSubscribed = some (JsVal.vBool true)) :
    ∀ (n : Nat) (store : Store), store.users uid = some doc →
      (generateImagePOST (Except.ok url) now store
          ⟨some p, some uid⟩).status = 200 ∧
      ∃ doc', (iterateGenerate (Except.ok url) now ⟨some p, some uid⟩ n
          store).users uid = some doc' ∧
        doc'.generationCount = doc.generationCount := by
  intro n
  induction n with
  | zero =>
    intro store hdoc
    exact ⟨generate_pro_ok_status url now store p uid doc hp hdoc hsub,
      doc, hdoc, rfl⟩
  | succ n ih =>
    intro store hdoc
    have hstep := generate_pro_preserves_users (Except.ok url) now store p uid
      doc hp hdoc hsub
    have hdoc2 : (generateImagePOST (Except.ok url) now store
        ⟨some p, some uid⟩).store.users uid = some doc := by
      rw [hstep]; exact hdoc
    refine ⟨generate_pro_ok_status url now store p uid doc hp hdoc hsub, ?_⟩
    have := (ih _ hdoc2).2
    simpa [iterateGenerate] using this

theorem generate_pro_count_unchanged_witness :
    (generateImagePOST (Except.ok "http://img/1.png") 0 (mkStore "u4" proDoc)
        ⟨some "a cat", some "u4"⟩).status = 200 ∧
    ∃ doc', (iterateGenerate (Except.ok "http://img/1.png") 0
        ⟨some "a cat", some "u4"⟩ 3 (mkStore "u4" proDoc)).users "u4" =
      some doc' ∧ doc'.generationCount = proDoc.generationCount :=
  generate_pro_count_unchanged "http://img/1.png" 0 "a cat" "u4" proDoc
    (by decide) (by decide) 3 (mkStore "u4" proDoc) (by decide)
